import Mathlib

/-!
Shallow embedding of the `duck_access` DuckDB extension
(`src/extension/duck_access/src/`): the manifest model and parser
(`duck_access_manifest.cpp`), the TTL manifest cache
(`ManifestCache::GetOrFetch`), and the policy rewrite performed by the
replacement scan (`duck_access_scan.cpp`).

Conventions of the embedding:
* Timestamps (`std::chrono::system_clock::time_point`, `time_t`) are `Int`
  seconds since the Unix epoch.
* JSON documents (nlohmann::json) are the inductive `Json` below; a JSON
  object is an association list with distinct keys (nlohmann stores objects
  as a map).  A response body that is not valid JSON text is represented as
  `Option.none` at the places where the C++ code calls `json::parse`.
* Exceptions thrown by nlohmann accessors are an `Except String` error; the
  carried string models `e.what()` (its exact wording abbreviated).
* The host engine's SQL expression parser (`Parser::ParseExpressionList`)
  and identifier quoting (`KeywordHelper::WriteOptionallyQuoted`) are
  external collaborators; they are abstracted as parameters
  `parse : String → List PE` (empty list = the string yields no expression)
  and `quoteName : String → String`, exactly at the interface the call
  sites use (`expressions.empty()` checks).
-/

namespace DuckAccess

/-- A decoded nlohmann::json value.  Objects carry their fields as an
association list (distinct keys). -/
inductive Json where
  | null
  | jbool (b : Bool)
  | num (n : Int)
  | str (s : String)
  | arr (items : List Json)
  | obj (fields : List (String × Json))

/-- `j[k]` lookup restricted to objects: the field named `k`, if any. -/
def Json.find? : Json → String → Option Json
  | .obj fields, k => fields.lookup k
  | _, _ => none

/-- nlohmann `j.contains(k)`: false on every non-object. -/
def Json.containsKey (j : Json) (k : String) : Bool :=
  (j.find? k).isSome

/-- nlohmann `is_string()`. -/
def Json.isString : Json → Bool
  | .str _ => true
  | _ => false

/-- nlohmann `is_object()`. -/
def Json.isObject : Json → Bool
  | .obj _ => true
  | _ => false

/-- nlohmann `j.value(k, default)` at type `std::string`: throws
type_error.306 when `j` is not an object, returns the default when the key
is absent, and throws type_error.302 when the field is present but not a
string.  Thrown errors are the `.error` branch. -/
def Json.valueStr : Json → String → String → Except String String
  | .obj fields, k, d =>
    match fields.lookup k with
    | none => .ok d
    | some (.str s) => .ok s
    | some _ => .error "type must be string"
  | _, _, _ => .error "cannot use value() with a non-object"

/-- The string elements of a JSON array, in order; non-string entries are
skipped (the `is_string()` guards in the `files` / `row_filters` loops). -/
def stringItems (l : List Json) : List String :=
  l.filterMap fun j =>
    match j with
    | .str s => some s
    | _ => none

/-- The string-valued fields of a JSON object, in order; non-string values
are skipped (the `item.value().is_string()` guard in the `column_masks`
loop). -/
def stringFields (l : List (String × Json)) : List (String × String) :=
  l.filterMap fun p =>
    match p.2 with
    | .str s => some (p.1, s)
    | _ => none

/-- `ManifestColumn` (duck_access_manifest.hpp). -/
structure ManifestColumn where
  name : String
  type : String
deriving DecidableEq, Repr

/-- `TableManifest` (duck_access_manifest.hpp).  `column_masks` is the
`std::unordered_map<std::string, std::string>` as an association list with
distinct keys (it is populated from the fields of one JSON object). -/
structure TableManifest where
  table : String
  schema : String
  columns : List ManifestColumn
  files : List String
  row_filters : List String
  column_masks : List (String × String)
  expires_at : Int
  fetched_at : Int
deriving DecidableEq, Repr

/-! ## ISO-8601 timestamp parsing (`std::get_time` + `timegm`) -/

/-- One numeric conversion of `std::get_time`: read at least one and at
most `maxW` leading decimal digits. Returns the value and the unread
rest; `none` when the first character is not a digit (the stream fails). -/
def readNum (maxW : Nat) (cs : List Char) : Option (Nat × List Char) :=
  match cs with
  | [] => none
  | c :: _ =>
    if c.isDigit then
      let digits := (cs.take maxW).takeWhile Char.isDigit
      some (digits.foldl (fun a d => a * 10 + (d.toNat - 48)) 0, cs.drop digits.length)
    else none

/-- A literal separator character of the `std::get_time` format string:
it must match the next input character exactly. -/
def expectChar (c : Char) : List Char → Option (List Char)
  | [] => none
  | x :: xs => if x = c then some xs else none

/-- The broken-down time produced by `std::get_time` (fields in civil
units: `month` 1–12, etc., as parsed from the text). -/
structure Tm where
  year : Nat
  month : Nat
  day : Nat
  hour : Nat
  minute : Nat
  second : Nat
deriving DecidableEq, Repr

/-- `ss >> std::get_time(&tm, "%Y-%m-%dT%H:%M:%S")`: four-digit-max year,
two-digit-max remaining fields, exact separators.  Trailing characters
(such as the `Z` designator) are left unread and do not fail the stream,
so `2024-01-15T10:30:00Z` parses. `none` models `ss.fail()`. -/
def parseIso (s : String) : Option Tm := do
  let cs := s.data
  let (y, cs) ← readNum 4 cs
  let cs ← expectChar '-' cs
  let (mo, cs) ← readNum 2 cs
  let cs ← expectChar '-' cs
  let (d, cs) ← readNum 2 cs
  let cs ← expectChar 'T' cs
  let (h, cs) ← readNum 2 cs
  let cs ← expectChar ':' cs
  let (mi, cs) ← readNum 2 cs
  let cs ← expectChar ':' cs
  let (sec, _) ← readNum 2 cs
  pure ⟨y, mo, d, h, mi, sec⟩

/-- Days since 1970-01-01 of a proleptic-Gregorian civil date (the
standard days-from-civil computation used by `timegm`). -/
def daysFromCivil (y m d : Int) : Int :=
  let y := if m ≤ 2 then y - 1 else y
  let era : Int := (if 0 ≤ y then y else y - 399) / 400
  let yoe : Int := y - era * 400
  let mp : Int := (m + 9) % 12
  let doy : Int := (153 * mp + 2) / 5 + d - 1
  let doe : Int := yoe * 365 + yoe / 4 - yoe / 100 + doy
  era * 146097 + doe - 719468

/-- POSIX `timegm`: the parsed fields interpreted as a UTC civil time,
as seconds since the epoch.  This is a pure function of the digits of the
timestamp — no local-timezone data enters (contrast `mktime`). -/
def timegmUTC (t : Tm) : Int :=
  daysFromCivil t.year t.month t.day * 86400 +
    t.hour * 3600 + t.minute * 60 + t.second

/-! ## `ManifestCache::ParseManifest` -/

/-- The `expires_at` extraction of `ParseManifest`
(duck_access_manifest.cpp lines 124–145): a present string field that
parses per `parseIso` is interpreted as UTC via `timegm`; an absent field,
a non-string field, or an unparsable string falls back to one hour from
now. -/
def extractExpires (j : Json) (now : Int) : Int :=
  match j.find? "expires_at" with
  | some (.str es) =>
    match parseIso es with
    | some tm => timegmUTC tm
    | none => now + 3600
  | _ => now + 3600

/-- The `columns` loop of `ParseManifest`: `col.value("name", "")` /
`col.value("type", "")` on each array element; a non-object element makes
the accessor throw, aborting the whole parse. -/
def parseColumns : List Json → Except String (List ManifestColumn)
  | [] => .ok []
  | c :: rest => do
    let n ← c.valueStr "name" ""
    let t ← c.valueStr "type" ""
    let tail ← parseColumns rest
    .ok (⟨n, t⟩ :: tail)

/-- The body of `ManifestCache::ParseManifest`'s `try` block, before the
empty-`files` validation gate: field extraction from the decoded JSON
value.  `now` is `std::chrono::system_clock::now()` (used for both
`fetched_at` and the expiry fallback).  The `.error` branch is a thrown
nlohmann accessor exception. -/
def parseManifestCore (j : Json) (now : Int) : Except String TableManifest :=
  match j.valueStr "table" "" with
  | .error e => .error e
  | .ok table =>
  match j.valueStr "schema" "main" with
  | .error e => .error e
  | .ok schema =>
  match (match j.find? "columns" with
         | some (.arr cols) => parseColumns cols
         | _ => .ok []) with
  | .error e => .error e
  | .ok columns =>
  let files :=
    match j.find? "files" with
    | some (.arr fs) => stringItems fs
    | _ => []
  let row_filters :=
    match j.find? "row_filters" with
    | some (.arr rs) => stringItems rs
    | _ => []
  let column_masks :=
    match j.find? "column_masks" with
    | some (.obj ms) => stringFields ms
    | _ => []
  .ok ⟨table, schema, columns, files, row_filters, column_masks,
       extractExpires j now, now⟩

/-- `ManifestCache::ParseManifest` on a decoded body: a thrown accessor
exception is reported as "error processing manifest: …" (the final catch
block); an empty `files` list after extraction is rejected with the
no-data-files error naming the extracted table. -/
def parseManifest (j : Json) (now : Int) : Except String TableManifest :=
  match parseManifestCore j now with
  | .error e => .error ("error processing manifest: " ++ e)
  | .ok m =>
    if m.files.isEmpty then
      .error ("manifest contains no data files for table \x27" ++ m.table ++ "\x27")
    else
      .ok m

/-! ## `ManifestCache::GetOrFetch` -/

/-- `HttpResponse` (duck_access_http.hpp).  `body` is the decoded JSON of
the body text (`none` when `json::parse` on it would throw); `rawBody` is
the body text itself (used only for the generic non-2xx error excerpt);
`error` is the transport-error string (empty on a received response). -/
structure HttpResponse where
  status_code : Int
  body : Option Json
  rawBody : String
  error : String

/-- `HttpResponse::Ok()`: `status_code >= 200 && status_code < 300`. -/
def HttpResponse.Ok (r : HttpResponse) : Bool :=
  decide (200 ≤ r.status_code) && decide (r.status_code < 300)

/-- The process-wide `ManifestCache::cache_` map, as an association list
(first binding wins on lookup; insertion replaces). -/
abbrev Cache := List (String × TableManifest)

/-- The cache key as computed at the `GetOrFetch` and `Invalidate` call
sites (duck_access_manifest.cpp lines 24 and 107): both call
`CacheKey(schema_name, table_name)`, passing only the schema and the
table — matching the class comment "keyed by \x22schema.table\x22"
(duck_access_manifest.hpp line 32) but not the four-parameter `CacheKey`
declared at hpp lines 59–67, which additionally takes `api_url` and
`api_key`; neither is supplied at any call site, so the credential never
reaches the stored key. -/
def getOrFetchKey (schema table : String) : String :=
  schema ++ "." ++ table

/-- `ManifestCache::CacheKey` as declared in duck_access_manifest.hpp
lines 59–67: `api_url + "|" + std::to_string(hash(api_key)) + "|" +
schema + "." + table`.  `std::hash<std::string>` is implementation
defined and is abstracted as the `digest` parameter. -/
def CacheKey (digest : String → Nat) (api_url api_key schema table : String) : String :=
  api_url ++ "|" ++ toString (digest api_key) ++ "|" ++ schema ++ "." ++ table

/-- `cache_.erase(key)` on the association-list representation. -/
def eraseKey (c : Cache) (k : String) : Cache :=
  c.filter fun p => p.1 ≠ k

/-- `cache_[key] = manifest`: replace any binding of `key`. -/
def insertKey (c : Cache) (k : String) (m : TableManifest) : Cache :=
  (k, m) :: eraseKey c k

/-- The 403/404 message extraction: `json::parse(response.body)` then
`err_json.value("message", dflt)`; any throw (malformed body, non-object
body, non-string `message`) yields `onThrow` via the catch-all. -/
def errMessage (body : Option Json) (dflt onThrow : String) : String :=
  match body with
  | none => onThrow
  | some j =>
    match j.valueStr "message" dflt with
    | .ok s => s
    | .error _ => onThrow

/-- What one `GetOrFetch` call produced: the returned manifest (`none`
models returning `nullptr`), the `out_error` string, the cache afterwards,
whether `DuckAccessHttp::PostJson` was called, and — when it was — the
`(table, schema)` fields of the posted request body. -/
structure FetchOutcome where
  manifest : Option TableManifest
  err : String
  cache : Cache
  gatewayCalled : Bool
  sentRequest : Option (String × String)
deriving Repr

/-- The straight-line fetch path of `GetOrFetch` after the cache check
(duck_access_manifest.cpp lines 43–103): classify the gateway response,
parse a successful body, and store the parsed manifest under `key`.
Returns `(manifest, out_error, cache afterwards)`. -/
def classifyResponse (cache : Cache) (key : String) (now : Int)
    (response : HttpResponse) : Option TableManifest × String × Cache :=
  if response.error ≠ "" then
    (none, "cannot reach API server: " ++ response.error, cache)
  else if response.status_code = 401 then
    (none, "authentication failed — check your API key", cache)
  else if response.status_code = 403 then
    (none, errMessage response.body "access denied" "access denied", cache)
  else if response.status_code = 404 then
    (none, errMessage response.body "table not found" "table not found on server", cache)
  else if ¬ response.Ok then
    (none, "API returned HTTP " ++ toString response.status_code ++
      (if response.rawBody = "" then "" else ": " ++ response.rawBody.take 200), cache)
  else
    match
      (match response.body with
       | none => Except.error "failed to parse manifest JSON: syntax error"
       | some j => parseManifest j now) with
    | .error e => (none, e, cache)
    | .ok m => (some m, "", insertKey cache key m)

/-- `ManifestCache::GetOrFetch`.  `now` is `system_clock::now()`;
`response` is what `DuckAccessHttp::PostJson(api_url + "/manifest",
api_key, body)` returns when the fetch path runs (the `api_key` itself
only travels in the X-API-Key header and so does not otherwise enter the
model).  A cached entry is served iff `expires_at - 60s > now`; otherwise
it is erased and the fetch path runs on the erased cache. -/
def getOrFetch (cache : Cache) (api_url api_key schema table : String)
    (now : Int) (response : HttpResponse) : FetchOutcome :=
  let _ := api_url
  let _ := api_key
  let key := getOrFetchKey schema table
  let fetch : Cache → FetchOutcome := fun c =>
    let r := classifyResponse c key now response
    ⟨r.1, r.2.1, r.2.2, true, some (table, schema)⟩
  match cache.lookup key with
  | some m =>
    if m.expires_at - 60 > now then
      ⟨some m, "", cache, false, none⟩
    else
      fetch (eraseKey cache key)
  | none => fetch cache

/-! ## `DuckAccessScan::ReplacementScanFunction` (duck_access_scan.cpp) -/

/-- The `read_parquet(...)` `FunctionExpression`: its single child is the
LIST constant of presigned URLs. -/
structure FunctionExpr where
  name : String
  urls : List String
deriving DecidableEq, Repr

/-- One entry of `select_node->select_list`.  `PE` is the host engine's
parsed-expression type (opaque); `star` is a `StarExpression`, `colRef` a
`ColumnRefExpression`. -/
inductive SelectItem (PE : Type) where
  | star
  | expr (e : PE)
  | colRef (name : String)
deriving DecidableEq, Repr

/-- The WHERE-clause expression tree the scan builds: parsed filter
expressions combined with binary `ConjunctionExpression(AND, ·, ·)`
nodes. -/
inductive WhereExpr (PE : Type) where
  | base (e : PE)
  | conjAnd (l r : WhereExpr PE)
deriving DecidableEq, Repr

/-- The `SelectNode` the scan builds: select list, the
`read_parquet` FROM ref with its alias, and the optional WHERE clause. -/
structure SelectNode (PE : Type) where
  selectList : List (SelectItem PE)
  fromFunction : FunctionExpr
  fromAlias : String
  whereClause : Option (WhereExpr PE)
deriving DecidableEq, Repr

/-- The `TableRef` the replacement scan returns: a bare
`TableFunctionRef`, or a `SubqueryRef` wrapping a select node; each
carries its alias. -/
inductive TableRefOut (PE : Type) where
  | tableFunction (f : FunctionExpr) (tableAlias : String)
  | subquery (node : SelectNode PE) (tableAlias : String)
deriving DecidableEq, Repr

/-- One select-list entry for column `col` (duck_access_scan.cpp lines
110–131): a mask found for the column name is parsed as
`mask + " AS " + WriteOptionallyQuoted(name)`; a parse yielding no
expression falls back to the bare column reference, as does an absent
mask. -/
def maskedSelectItem {PE : Type} (parse : String → List PE)
    (quoteName : String → String) (masks : List (String × String))
    (col : ManifestColumn) : SelectItem PE :=
  match masks.lookup col.name with
  | some mask =>
    match parse (mask ++ " AS " ++ quoteName col.name) with
    | e :: _ => .expr e
    | [] => .colRef col.name
  | none => .colRef col.name

/-- The select list (duck_access_scan.cpp lines 104–132): `SELECT *` when
`column_masks` is empty, else one entry per declared column in order. -/
def buildSelectList {PE : Type} (parse : String → List PE)
    (quoteName : String → String) (m : TableManifest) : List (SelectItem PE) :=
  if m.column_masks.isEmpty then
    [.star]
  else
    m.columns.map (maskedSelectItem parse quoteName m.column_masks)

/-- The filter-combining loop (duck_access_scan.cpp lines 136–153):
`combined_filter` starts null; each filter string is parsed, an empty
parse is skipped (`continue`), the first success seeds the accumulator
and each later success is attached with `AND(combined, new)`. -/
def combineFilters {PE : Type} (parse : String → List PE) :
    Option (WhereExpr PE) → List String → Option (WhereExpr PE)
  | acc, [] => acc
  | acc, f :: fs =>
    combineFilters parse
      (match (parse f).head? with
       | none => acc
       | some e =>
         match acc with
         | none => some (.base e)
         | some w => some (.conjAnd w (.base e)))
      fs

/-- Steps 3–4 of the replacement scan (duck_access_scan.cpp lines
69–163), given the fetched manifest: the bare `read_parquet` scan when
both policy lists are empty, otherwise the subquery wrapper with masks in
the projection and the AND-combined row filters in the WHERE clause. -/
def buildFragment {PE : Type} (parse : String → List PE)
    (quoteName : String → String) (m : TableManifest)
    (table_name : String) : TableRefOut PE :=
  let fn : FunctionExpr := ⟨"read_parquet", m.files⟩
  if m.row_filters.isEmpty && m.column_masks.isEmpty then
    .tableFunction fn table_name
  else
    .subquery
      ⟨buildSelectList parse quoteName m,
       fn,
       "__duck_access_src",
       if m.row_filters.isEmpty then none
       else combineFilters parse none m.row_filters⟩
      table_name

/-- `DuckAccessSecretData` (duck_access_secret.hpp). -/
structure SecretData where
  api_url : String
  api_key : String
deriving DecidableEq, Repr

/-- What `ReplacementScanFunction` hands back to the engine: `nullptr`
(no duck_access secret — not our table), a thrown `BinderException`, or
the rewritten table ref. -/
inductive ScanResult (PE : Type) where
  | noSecret
  | bindError (msg : String)
  | rewritten (ref : TableRefOut PE)
deriving Repr

/-- A replacement-scan call's result together with the cache state and
gateway activity it caused. -/
structure ScanOutcome (PE : Type) where
  result : ScanResult PE
  cache : Cache
  gatewayCalled : Bool
  sentRequest : Option (String × String)

/-- `DuckAccessScan::ReplacementScanFunction` (duck_access_scan.cpp lines
26–164): secret lookup, `"main"` substituted for an empty schema name,
manifest fetch through the cache, then fragment construction. -/
def replacementScan {PE : Type} (parse : String → List PE)
    (quoteName : String → String) (secret : Option SecretData)
    (cache : Cache) (schema_name table_name : String) (now : Int)
    (response : HttpResponse) : ScanOutcome PE :=
  match secret with
  | none => ⟨.noSecret, cache, false, none⟩
  | some sec =>
    let effective_schema := if schema_name = "" then "main" else schema_name
    let fo := getOrFetch cache sec.api_url sec.api_key effective_schema table_name now response
    match fo.manifest with
    | none =>
      ⟨.bindError ("duck_access: failed to resolve table \x27" ++ table_name ++
         "\x27: " ++ fo.err),
       fo.cache, fo.gatewayCalled, fo.sentRequest⟩
    | some m =>
      ⟨.rewritten (buildFragment parse quoteName m table_name),
       fo.cache, fo.gatewayCalled, fo.sentRequest⟩

/-! ## Semantics of the built WHERE clause, and the spec-side description
of the filter combination -/

/-- One step of the combining loop, abstracted: attach a successfully
parsed filter expression to the accumulator. -/
def addParsed {PE : Type} : Option (WhereExpr PE) → PE → Option (WhereExpr PE)
  | none, e => some (.base e)
  | some w, e => some (.conjAnd w (.base e))

/-- Modelled from the spec's words ("AND-combine every entry … ,
left-to-right"): the left-associated AND chain over an already-parsed
list of predicate expressions; `none` when the list is empty.  To be
compared with what `combineFilters` (the code) produces. -/
def specAndChain {PE : Type} : List PE → Option (WhereExpr PE)
  | [] => none
  | e :: es => some (es.foldl (fun w e2 => .conjAnd w (.base e2)) (.base e))

/-- Boolean semantics of a WHERE tree, given a semantics `sem` of the
host engine's parsed predicates on rows of type `ρ`. -/
def evalWhere {PE ρ : Type} (sem : PE → ρ → Bool) (row : ρ) : WhereExpr PE → Bool
  | .base e => sem e row
  | .conjAnd l r => evalWhere sem row l && evalWhere sem row r

/-- Whether a row passes an optional WHERE clause (an absent clause keeps
every row). -/
def selectionHolds {PE ρ : Type} (sem : PE → ρ → Bool) (row : ρ) :
    Option (WhereExpr PE) → Bool
  | none => true
  | some w => evalWhere sem row w

/-! ## Supporting lemmas -/

theorem combineFilters_eq_foldl {PE : Type} (parse : String → List PE)
    (fs : List String) (acc : Option (WhereExpr PE)) :
    combineFilters parse acc fs =
      (fs.filterMap fun f => (parse f).head?).foldl addParsed acc := by
  induction fs generalizing acc with
  | nil => rfl
  | cons f fs ih =>
    rw [combineFilters, List.filterMap_cons]
    cases h : (parse f).head? with
    | none => simp only [h]; exact ih acc
    | some e =>
      simp only [h, List.foldl_cons]
      cases acc with
      | none => exact ih _
      | some w => exact ih _

theorem foldl_addParsed_some {PE : Type} (l : List PE) (w : WhereExpr PE) :
    l.foldl addParsed (some w) =
      some (l.foldl (fun w2 e => .conjAnd w2 (.base e)) w) := by
  induction l generalizing w with
  | nil => rfl
  | cons e es ih => simp only [List.foldl_cons, addParsed]; exact ih _

theorem combineFilters_eq_specAndChain {PE : Type} (parse : String → List PE)
    (fs : List String) :
    combineFilters parse none fs =
      specAndChain (fs.filterMap fun f => (parse f).head?) := by
  rw [combineFilters_eq_foldl]
  cases h : fs.filterMap fun f => (parse f).head? with
  | nil => rfl
  | cons e es =>
    simp only [List.foldl_cons, addParsed, specAndChain]
    exact foldl_addParsed_some es (.base e)

theorem evalWhere_foldl_conj {PE ρ : Type} (sem : PE → ρ → Bool) (row : ρ)
    (l : List PE) (w : WhereExpr PE) :
    evalWhere sem row (l.foldl (fun w2 e => .conjAnd w2 (.base e)) w) =
      (evalWhere sem row w && l.all fun e => sem e row) := by
  induction l generalizing w with
  | nil => simp
  | cons e es ih =>
    simp only [List.foldl_cons, List.all_cons, ih, evalWhere, Bool.and_assoc]

theorem selectionHolds_specAndChain {PE ρ : Type} (sem : PE → ρ → Bool)
    (row : ρ) (l : List PE) :
    selectionHolds sem row (specAndChain l) = l.all fun e => sem e row := by
  cases l with
  | nil => rfl
  | cons e es =>
    simp only [specAndChain, selectionHolds, evalWhere_foldl_conj, List.all_cons,
      evalWhere]

theorem eraseKey_lookup_none (c : Cache) (k : String) :
    (eraseKey c k).lookup k = none := by
  induction c with
  | nil => rfl
  | cons p t ih =>
    rw [eraseKey, List.filter_cons]
    by_cases h : p.1 = k
    · rw [if_neg (by simp [h])]
      exact ih
    · rw [if_pos (by simp [h]), List.lookup]
      have hk : (k == p.1) = false := by
        simp only [beq_eq_false_iff_ne, ne_eq]
        exact fun e => h e.symm
      rw [hk]
      exact ih

theorem classifyResponse_cache_of_none (c : Cache) (k : String) (now : Int)
    (r : HttpResponse) (h : (classifyResponse c k now r).1 = none) :
    (classifyResponse c k now r).2.2 = c := by
  unfold classifyResponse at h ⊢
  split_ifs at h ⊢ <;> try rfl
  rename_i herr h401 h403 h404 hok
  cases hp : (match r.body with
    | none => Except.error "failed to parse manifest JSON: syntax error"
    | some j => parseManifest j now) with
  | error e => simp [hp]
  | ok m => simp [hp] at h

theorem classifyResponse_404 (c : Cache) (k : String) (now : Int)
    (r : HttpResponse) (he : r.error = "") (h4 : r.status_code = 404) :
    classifyResponse c k now r =
      (none, errMessage r.body "table not found" "table not found on server", c) := by
  unfold classifyResponse
  split_ifs with h1 h2 h3 h5 <;> first
    | rfl
    | · exfalso; omega
    | · exfalso; simp [he] at h1
    | · exfalso; exact h5 h4

theorem classifyResponse_2xx (c : Cache) (k : String) (now : Int)
    (r : HttpResponse) (j : Json) (he : r.error = "")
    (hs1 : 200 ≤ r.status_code) (hs2 : r.status_code < 300)
    (hb : r.body = some j) :
    classifyResponse c k now r =
      (match parseManifest j now with
       | .error e => (none, e, c)
       | .ok m => (some m, "", insertKey c k m)) := by
  have hok : r.Ok = true := by
    simp only [HttpResponse.Ok, Bool.and_eq_true, decide_eq_true_eq]
    exact ⟨hs1, hs2⟩
  unfold classifyResponse
  rw [hb]
  split_ifs with h1 h2 h3 h4 h5 <;> first
    | rfl
    | · exfalso; omega
    | · exfalso; simp [he] at h1
    | · exfalso; exact h5 hok

theorem parseManifestCore_expires (j : Json) (now : Int) (m : TableManifest)
    (h : parseManifestCore j now = .ok m) :
    m.expires_at = extractExpires j now ∧ m.fetched_at = now := by
  unfold parseManifestCore at h
  cases ht : j.valueStr "table" "" with
  | error e => rw [ht] at h; exact absurd h (by simp)
  | ok table =>
    rw [ht] at h
    cases hs : j.valueStr "schema" "main" with
    | error e => rw [hs] at h; exact absurd h (by simp)
    | ok schema =>
      rw [hs] at h
      cases hc : (match j.find? "columns" with
          | some (.arr cols) => parseColumns cols
          | _ => Except.ok ([] : List ManifestColumn)) with
      | error e => rw [hc] at h; exact absurd h (by simp)
      | ok columns =>
        rw [hc] at h
        injection h with h2
        rw [← h2]
        exact ⟨rfl, rfl⟩

/-! ## The claims -/

/-- Claim C6 (rewrite no-op): for every manifest with empty `row_filters`
and empty `column_masks`, the output fragment is a direct
`read_parquet` table-function scan over exactly the manifest's `files`
in order, aliased to the original table name, with no subquery
wrapper. -/
theorem rewrite_noop {PE : Type} (parse : String → List PE)
    (quoteName : String → String) (m : TableManifest) (table_name : String)
    (hf : m.row_filters = []) (hm : m.column_masks = []) :
    buildFragment parse quoteName m table_name =
      .tableFunction ⟨"read_parquet", m.files⟩ table_name := by
  simp [buildFragment, hf, hm]

/-- Witness for `rewrite_noop`: a concrete manifest with two files and no
policies rewrites to the bare scan over both files. -/
theorem rewrite_noop_witness :
    (⟨"orders", "main", [⟨"id", "INTEGER"⟩],
        ["https://files.example.com/a.parquet", "https://files.example.com/b.parquet"],
        [], [], 3600, 0⟩ : TableManifest).row_filters = [] ∧
    (⟨"orders", "main", [⟨"id", "INTEGER"⟩],
        ["https://files.example.com/a.parquet", "https://files.example.com/b.parquet"],
        [], [], 3600, 0⟩ : TableManifest).column_masks = [] ∧
    @buildFragment String (fun s => [s]) id
        ⟨"orders", "main", [⟨"id", "INTEGER"⟩],
          ["https://files.example.com/a.parquet", "https://files.example.com/b.parquet"],
          [], [], 3600, 0⟩ "orders" =
      .tableFunction
        ⟨"read_parquet",
          ["https://files.example.com/a.parquet", "https://files.example.com/b.parquet"]⟩
        "orders" :=
  ⟨rfl, rfl, rewrite_noop (fun s => [s]) id _ "orders" rfl rfl⟩

/-- Claim C2 (masking projection): for every manifest with non-empty
`column_masks`, the derived relation projects exactly one expression per
entry of `columns`, in `columns` order: when a mask exists for the column
and its text (rendered as `mask AS quoted-name`) parses, the parsed
aliased expression; otherwise the bare column reference.  Masks keyed by
names outside `columns` are never consulted, since the projection is a
map over `columns`. -/
theorem masking_projection {PE : Type} (parse : String → List PE)
    (quoteName : String → String) (m : TableManifest) (table_name : String)
    (hm : m.column_masks.isEmpty = false) :
    ∃ node : SelectNode PE,
      buildFragment parse quoteName m table_name = .subquery node table_name ∧
      node.selectList = m.columns.map (fun col =>
        match m.column_masks.lookup col.name with
        | some mask =>
          (match parse (mask ++ " AS " ++ quoteName col.name) with
           | e :: _ => SelectItem.expr e
           | [] => SelectItem.colRef col.name)
        | none => SelectItem.colRef col.name) ∧
      node.selectList.length = m.columns.length := by
  have hcond : (m.row_filters.isEmpty && m.column_masks.isEmpty) = false := by
    rw [hm, Bool.and_false]
  have hbs : buildSelectList parse quoteName m =
      m.columns.map (fun col =>
        match m.column_masks.lookup col.name with
        | some mask =>
          (match parse (mask ++ " AS " ++ quoteName col.name) with
           | e :: _ => SelectItem.expr e
           | [] => SelectItem.colRef col.name)
        | none => SelectItem.colRef col.name) := by
    unfold buildSelectList
    rw [hm]
    simp only [Bool.false_eq_true, if_false]
    rfl
  refine ⟨⟨buildSelectList parse quoteName m, ⟨"read_parquet", m.files⟩,
      "__duck_access_src",
      if m.row_filters.isEmpty then none
      else combineFilters parse none m.row_filters⟩, ?_, hbs, ?_⟩
  · unfold buildFragment
    rw [hcond]
    simp only [Bool.false_eq_true, if_false]
  · rw [hbs, List.length_map]

/-- Witness for `masking_projection`: one masked column `name` with
expression `'***'` and one unmasked column `id`; the projection is the
parse of `'*** AS name'` then the bare `id` reference, in declared
order. -/
theorem masking_projection_witness :
    (⟨"people", "main", [⟨"name", "VARCHAR"⟩, ⟨"id", "INTEGER"⟩],
        ["https://files.example.com/p.parquet"], [],
        [("name", "\x27***\x27")], 3600, 0⟩ : TableManifest).column_masks.isEmpty
        = false ∧
    ∃ node : SelectNode String,
      buildFragment (fun s => [s]) id
          ⟨"people", "main", [⟨"name", "VARCHAR"⟩, ⟨"id", "INTEGER"⟩],
            ["https://files.example.com/p.parquet"], [],
            [("name", "\x27***\x27")], 3600, 0⟩ "people" =
        .subquery node "people" ∧
      node.selectList =
        ([⟨"name", "VARCHAR"⟩, ⟨"id", "INTEGER"⟩] : List ManifestColumn).map
          (fun col =>
            match ([("name", "\x27***\x27")] : List (String × String)).lookup col.name with
            | some mask =>
              (match [mask ++ " AS " ++ id col.name] with
               | e :: _ => SelectItem.expr e
               | [] => SelectItem.colRef col.name)
            | none => SelectItem.colRef col.name) ∧
      node.selectList.length =
        ([⟨"name", "VARCHAR"⟩, ⟨"id", "INTEGER"⟩] : List ManifestColumn).length :=
  ⟨rfl, masking_projection (fun s => [s]) id _ "people" rfl⟩

/-- Claim C3 (filter conjunction): for every manifest with non-empty
`row_filters`, the derived relation's WHERE clause is the left-to-right
AND-combination of every filter entry that parses (each unparsable entry
skipped individually), and a row passes it exactly when every parsed
filter holds of the row — so for
`row_filters = ["age > 18", "region = 'US'"]` the selection is logically
equivalent to `age > 18 AND region = 'US'`. -/
theorem filter_conjunction {PE : Type} (parse : String → List PE)
    (quoteName : String → String) (m : TableManifest) (table_name : String)
    (hf : m.row_filters.isEmpty = false) :
    ∃ sl : List (SelectItem PE),
      buildFragment parse quoteName m table_name =
        .subquery
          ⟨sl, ⟨"read_parquet", m.files⟩, "__duck_access_src",
            specAndChain (m.row_filters.filterMap fun f => (parse f).head?)⟩
          table_name ∧
      ∀ (ρ : Type) (sem : PE → ρ → Bool) (row : ρ),
        selectionHolds sem row
            (specAndChain (m.row_filters.filterMap fun f => (parse f).head?)) =
          (m.row_filters.filterMap fun f => (parse f).head?).all
            fun e => sem e row := by
  have hcond : (m.row_filters.isEmpty && m.column_masks.isEmpty) = false := by
    rw [hf, Bool.false_and]
  refine ⟨buildSelectList parse quoteName m, ?_,
    fun ρ sem row => selectionHolds_specAndChain sem row _⟩
  unfold buildFragment
  rw [hcond, hf]
  simp only [Bool.false_eq_true, if_false]
  rw [combineFilters_eq_specAndChain]

/-- Witness for `filter_conjunction`: exactly the spec's example
`row_filters = ["age > 18", "region = 'US'"]`, both parsing, producing
the two-leaf AND chain. -/
theorem filter_conjunction_witness :
    (⟨"people", "main", [], ["https://files.example.com/p.parquet"],
        ["age > 18", "region = \x27US\x27"], [], 3600, 0⟩ :
        TableManifest).row_filters.isEmpty = false ∧
    (∃ sl : List (SelectItem String),
      buildFragment (fun s => [s]) id
          ⟨"people", "main", [], ["https://files.example.com/p.parquet"],
            ["age > 18", "region = \x27US\x27"], [], 3600, 0⟩ "people" =
        .subquery
          ⟨sl, ⟨"read_parquet", ["https://files.example.com/p.parquet"]⟩,
            "__duck_access_src",
            specAndChain
              ((["age > 18", "region = \x27US\x27"].filterMap
                fun f => ([f].head?)) : List String)⟩
          "people" ∧
      ∀ (ρ : Type) (sem : String → ρ → Bool) (row : ρ),
        selectionHolds sem row
            (specAndChain
              ((["age > 18", "region = \x27US\x27"].filterMap
                fun f => ([f].head?)) : List String)) =
          (["age > 18", "region = \x27US\x27"].filterMap
              fun f => ([f].head?)).all
            fun e => sem e row) ∧
    specAndChain
        ((["age > 18", "region = \x27US\x27"].filterMap
          fun f => ([f].head?)) : List String) =
      some (.conjAnd (.base "age > 18") (.base "region = \x27US\x27")) :=
  ⟨rfl, filter_conjunction (fun s => [s]) id _ "people" rfl, rfl⟩

/-- Claim C9 (implicit, all filters unparsable): for every manifest whose
`row_filters` is non-empty but in which every entry fails to parse, and
whose `column_masks` is empty, the rewrite still returns the derived
relation wrapper projecting `*` with no WHERE clause at all — not the
bare-scan path — and nothing signals the dropped filters. -/
theorem unparsable_filters_silent {PE : Type} (parse : String → List PE)
    (quoteName : String → String) (m : TableManifest) (table_name : String)
    (hf : m.row_filters.isEmpty = false)
    (hall : ∀ f ∈ m.row_filters, parse f = [])
    (hm : m.column_masks = []) :
    buildFragment parse quoteName m table_name =
      .subquery
        ⟨[SelectItem.star], ⟨"read_parquet", m.files⟩, "__duck_access_src", none⟩
        table_name := by
  have hfm : (m.row_filters.filterMap fun f => (parse f).head?) = [] := by
    rw [List.filterMap_eq_nil_iff]
    intro f hfmem
    rw [hall f hfmem]
    rfl
  have hcond : (m.row_filters.isEmpty && m.column_masks.isEmpty) = false := by
    rw [hf, Bool.false_and]
  have hcomb : combineFilters parse none m.row_filters = none := by
    rw [combineFilters_eq_specAndChain, hfm]
    rfl
  unfold buildFragment
  rw [hcond, hf]
  simp only [Bool.false_eq_true, if_false]
  rw [hcomb]
  unfold buildSelectList
  rw [hm]
  rfl

/-- Witness for `unparsable_filters_silent`: a parser that rejects every
string, one row filter, no masks: the fragment is the `SELECT * `
subquery with no WHERE clause. -/
theorem unparsable_filters_silent_witness :
    (⟨"people", "main", [], ["https://files.example.com/p.parquet"],
        ["age >>> banana"], [], 3600, 0⟩ :
        TableManifest).row_filters.isEmpty = false ∧
    (∀ f ∈ (⟨"people", "main", [], ["https://files.example.com/p.parquet"],
        ["age >>> banana"], [], 3600, 0⟩ :
        TableManifest).row_filters, (fun _ : String => ([] : List String)) f = []) ∧
    buildFragment (fun _ : String => ([] : List String)) id
        ⟨"people", "main", [], ["https://files.example.com/p.parquet"],
          ["age >>> banana"], [], 3600, 0⟩ "people" =
      .subquery
        ⟨[SelectItem.star],
          ⟨"read_parquet", ["https://files.example.com/p.parquet"]⟩,
          "__duck_access_src", none⟩
        "people" :=
  ⟨rfl, fun f _ => rfl,
    unparsable_filters_silent (fun _ => []) id _ "people" rfl (fun f _ => rfl) rfl⟩

/-- Claim C10 (empty schema defaults to "main"): a replacement-scan call
with an empty schema name behaves identically to one with schema
`"main"`: same cache key consulted, same request body sent, same result
and same cache afterwards. -/
theorem empty_schema_defaults_main {PE : Type} (parse : String → List PE)
    (quoteName : String → String) (sec : SecretData) (cache : Cache)
    (table_name : String) (now : Int) (response : HttpResponse) :
    replacementScan parse quoteName (some sec) cache "" table_name now response =
      replacementScan parse quoteName (some sec) cache "main" table_name now
        response := by
  unfold replacementScan
  norm_num

/-- The four-parameter `CacheKey` declared in the header does satisfy the
isolation property the spec asks of it: with a common endpoint, API keys
whose digests render differently yield different keys.  (The call sites
never invoke it this way — see `cache_key_tenant_bleed`.) -/
theorem CacheKey_separates_digests (digest : String → Nat)
    (api_url api_key1 api_key2 schema table : String)
    (h : toString (digest api_key1) ≠ toString (digest api_key2)) :
    CacheKey digest api_url api_key1 schema table ≠
      CacheKey digest api_url api_key2 schema table := by
  intro he
  apply h
  have h2 := congrArg String.data he
  simp only [CacheKey, String.data_append, List.append_assoc] at h2
  have h3 := List.append_cancel_left h2
  have h4 := List.append_cancel_left h3
  exact String.ext (List.append_cancel_right h4)

/-- Claim C1 (code bug evaluated): the cache key actually used by
`GetOrFetch` is computed from the schema and table alone, so a second,
different credential against the same `(schema, table)` is served the
first credential's cached manifest without any gateway call — concretely,
tenant A's fetch populates the cache and tenant B then reads it even
though B's gateway is unreachable. -/
theorem cache_key_tenant_bleed :
    (getOrFetch [] "https://api.example.com/v1" "key-tenant-a" "main" "orders" 0
        ⟨200, some (Json.obj
            [("files", Json.arr [Json.str "https://files.example.com/a.parquet"])]),
          "", ""⟩).gatewayCalled = true ∧
    (getOrFetch [] "https://api.example.com/v1" "key-tenant-a" "main" "orders" 0
        ⟨200, some (Json.obj
            [("files", Json.arr [Json.str "https://files.example.com/a.parquet"])]),
          "", ""⟩).manifest.isSome = true ∧
    (getOrFetch
        (getOrFetch [] "https://api.example.com/v1" "key-tenant-a" "main" "orders" 0
          ⟨200, some (Json.obj
              [("files", Json.arr [Json.str "https://files.example.com/a.parquet"])]),
            "", ""⟩).cache
        "https://api.example.com/v1" "key-tenant-b" "main" "orders" 0
        ⟨0, none, "", "unreachable"⟩).gatewayCalled = false ∧
    (getOrFetch
        (getOrFetch [] "https://api.example.com/v1" "key-tenant-a" "main" "orders" 0
          ⟨200, some (Json.obj
              [("files", Json.arr [Json.str "https://files.example.com/a.parquet"])]),
            "", ""⟩).cache
        "https://api.example.com/v1" "key-tenant-b" "main" "orders" 0
        ⟨0, none, "", "unreachable"⟩).manifest =
      (getOrFetch [] "https://api.example.com/v1" "key-tenant-a" "main" "orders" 0
        ⟨200, some (Json.obj
            [("files", Json.arr [Json.str "https://files.example.com/a.parquet"])]),
          "", ""⟩).manifest :=
  ⟨rfl, rfl, rfl, rfl⟩

/-- Claim C4 (cache freshness): with an entry stored under the key, the
call returns that cached manifest without a gateway call iff
`now + 60 < expires_at` (the fixed 60-second safety margin); otherwise
the entry is evicted before the refetch, so a failed refetch leaves no
entry under the key and returns no manifest. -/
theorem cache_freshness (cache : Cache) (api_url api_key schema table : String)
    (now : Int) (response : HttpResponse) (m : TableManifest)
    (hc : cache.lookup (getOrFetchKey schema table) = some m) :
    (((getOrFetch cache api_url api_key schema table now response).manifest = some m ∧
      (getOrFetch cache api_url api_key schema table now response).gatewayCalled
        = false) ↔
      now + 60 < m.expires_at) ∧
    (¬ now + 60 < m.expires_at →
      (getOrFetch cache api_url api_key schema table now response).gatewayCalled
        = true ∧
      ((getOrFetch cache api_url api_key schema table now response).manifest = none →
        ((getOrFetch cache api_url api_key schema table now response).cache).lookup
          (getOrFetchKey schema table) = none)) := by
  simp only [getOrFetch, hc]
  by_cases hfr : m.expires_at - 60 > now
  · rw [if_pos hfr]
    refine ⟨⟨fun _ => by omega, fun _ => ⟨rfl, rfl⟩⟩, fun hn => absurd (by omega) hn⟩
  · rw [if_neg hfr]
    refine ⟨⟨fun hcon => absurd hcon.2 (by simp), fun hlt => absurd hlt (by omega)⟩,
      fun _ => ⟨rfl, fun hnone => ?_⟩⟩
    have hcc := classifyResponse_cache_of_none
      (eraseKey cache (getOrFetchKey schema table)) (getOrFetchKey schema table)
      now response hnone
    show (classifyResponse (eraseKey cache (getOrFetchKey schema table))
        (getOrFetchKey schema table) now response).2.2.lookup
        (getOrFetchKey schema table) = none
    rw [hcc]
    exact eraseKey_lookup_none _ _

/-- Witness for `cache_freshness`: a fresh entry (expiry 1000, now 0) is
served from the cache. -/
theorem cache_freshness_witness :
    ([(getOrFetchKey "main" "orders",
        (⟨"orders", "main", [], ["https://files.example.com/a.parquet"],
          [], [], 1000, 0⟩ : TableManifest))] : Cache).lookup
      (getOrFetchKey "main" "orders") =
      some ⟨"orders", "main", [], ["https://files.example.com/a.parquet"],
        [], [], 1000, 0⟩ ∧
    (((getOrFetch
        [(getOrFetchKey "main" "orders",
          ⟨"orders", "main", [], ["https://files.example.com/a.parquet"],
            [], [], 1000, 0⟩)]
        "https://api.example.com/v1" "key" "main" "orders" 0
        ⟨0, none, "", "unreachable"⟩).manifest =
        some ⟨"orders", "main", [], ["https://files.example.com/a.parquet"],
          [], [], 1000, 0⟩ ∧
      (getOrFetch
        [(getOrFetchKey "main" "orders",
          ⟨"orders", "main", [], ["https://files.example.com/a.parquet"],
            [], [], 1000, 0⟩)]
        "https://api.example.com/v1" "key" "main" "orders" 0
        ⟨0, none, "", "unreachable"⟩).gatewayCalled = false) ↔
      (0 : Int) + 60 <
        (⟨"orders", "main", [], ["https://files.example.com/a.parquet"],
          [], [], 1000, 0⟩ : TableManifest).expires_at) ∧
    (¬ (0 : Int) + 60 <
        (⟨"orders", "main", [], ["https://files.example.com/a.parquet"],
          [], [], 1000, 0⟩ : TableManifest).expires_at →
      (getOrFetch
        [(getOrFetchKey "main" "orders",
          ⟨"orders", "main", [], ["https://files.example.com/a.parquet"],
            [], [], 1000, 0⟩)]
        "https://api.example.com/v1" "key" "main" "orders" 0
        ⟨0, none, "", "unreachable"⟩).gatewayCalled = true ∧
      ((getOrFetch
        [(getOrFetchKey "main" "orders",
          ⟨"orders", "main", [], ["https://files.example.com/a.parquet"],
            [], [], 1000, 0⟩)]
        "https://api.example.com/v1" "key" "main" "orders" 0
        ⟨0, none, "", "unreachable"⟩).manifest = none →
        ((getOrFetch
          [(getOrFetchKey "main" "orders",
            ⟨"orders", "main", [], ["https://files.example.com/a.parquet"],
              [], [], 1000, 0⟩)]
          "https://api.example.com/v1" "key" "main" "orders" 0
          ⟨0, none, "", "unreachable"⟩).cache).lookup
          (getOrFetchKey "main" "orders") = none)) :=
  ⟨rfl, cache_freshness _ "https://api.example.com/v1" "key" "main" "orders" 0
    ⟨0, none, "", "unreachable"⟩ _ rfl⟩

/-- Claim C5, counterexample: a response body that is valid JSON but not
an object (here the JSON text `[]`) has an empty extracted files list,
yet parsing fails with the generic processing error thrown by the field
accessors — not with the no-data-files error naming the table. -/
theorem no_files_rejection_counterexample :
    parseManifest (Json.arr []) 0 =
      .error ("error processing manifest: cannot use value() with a non-object") ∧
    parseManifest (Json.arr []) 0 ≠
      .error ("manifest contains no data files for table \x27\x27") := by
  refine ⟨rfl, fun h => ?_⟩
  rw [show parseManifest (Json.arr []) 0 =
    .error ("error processing manifest: cannot use value() with a non-object")
    from rfl] at h
  injection h with h2
  exact absurd h2 (by decide)

/-- Claim C5 as amended: for every 2xx response whose body decodes to a
JSON value whose field extraction raises no type error
(`parseManifestCore` succeeds) and whose extracted `files` list is empty,
parsing fails with the no-data-files error naming the extracted table, no
manifest is returned, and the call leaves no cache entry under the
key. -/
theorem no_files_rejection_amended (cache : Cache)
    (api_url api_key schema table : String) (now : Int)
    (response : HttpResponse) (j : Json) (m : TableManifest)
    (hb : response.body = some j) (he : response.error = "")
    (hs1 : 200 ≤ response.status_code) (hs2 : response.status_code < 300)
    (hcore : parseManifestCore j now = .ok m) (hfiles : m.files = []) :
    parseManifest j now =
      .error ("manifest contains no data files for table \x27" ++ m.table ++ "\x27") ∧
    ((getOrFetch cache api_url api_key schema table now response).gatewayCalled
        = true →
      (getOrFetch cache api_url api_key schema table now response).manifest
        = none ∧
      (getOrFetch cache api_url api_key schema table now response).err =
        "manifest contains no data files for table \x27" ++ m.table ++ "\x27" ∧
      ((getOrFetch cache api_url api_key schema table now response).cache).lookup
        (getOrFetchKey schema table) = none) := by
  have hpm : parseManifest j now =
      .error ("manifest contains no data files for table \x27" ++ m.table ++ "\x27") := by
    unfold parseManifest
    rw [hcore]
    simp [hfiles]
  refine ⟨hpm, ?_⟩
  simp only [getOrFetch]
  cases hl : cache.lookup (getOrFetchKey schema table) with
  | some mm =>
    dsimp only
    by_cases hfr : mm.expires_at - 60 > now
    · rw [if_pos hfr]
      intro hcall
      exact absurd hcall (by simp)
    · rw [if_neg hfr]
      intro _
      have hcr := classifyResponse_2xx
        (eraseKey cache (getOrFetchKey schema table)) (getOrFetchKey schema table)
        now response j he hs1 hs2 hb
      rw [hpm] at hcr
      refine ⟨by simp [hcr], by simp [hcr], ?_⟩
      show (classifyResponse (eraseKey cache (getOrFetchKey schema table))
          (getOrFetchKey schema table) now response).2.2.lookup
          (getOrFetchKey schema table) = none
      rw [hcr]
      exact eraseKey_lookup_none _ _
  | none =>
    dsimp only
    intro _
    have hcr := classifyResponse_2xx cache (getOrFetchKey schema table)
      now response j he hs1 hs2 hb
    rw [hpm] at hcr
    refine ⟨by simp [hcr], by simp [hcr], ?_⟩
    show (classifyResponse cache (getOrFetchKey schema table)
        now response).2.2.lookup (getOrFetchKey schema table) = none
    rw [hcr]
    exact hl

/-- Witness for `no_files_rejection_amended`: a 200 response whose body
declares table `users` and an empty files array. -/
theorem no_files_rejection_amended_witness :
    ((⟨200, some (Json.obj [("table", Json.str "users"), ("files", Json.arr [])]),
        "", ""⟩ : HttpResponse).body =
      some (Json.obj [("table", Json.str "users"), ("files", Json.arr [])]) ∧
     parseManifestCore
        (Json.obj [("table", Json.str "users"), ("files", Json.arr [])]) 0 =
      .ok ⟨"users", "main", [], [], [], [], 3600, 0⟩) ∧
    parseManifest (Json.obj [("table", Json.str "users"), ("files", Json.arr [])]) 0 =
      .error ("manifest contains no data files for table \x27" ++
        (⟨"users", "main", [], [], [], [], 3600, 0⟩ : TableManifest).table ++ "\x27") ∧
    ((getOrFetch [] "https://api.example.com/v1" "key" "main" "users" 0
        ⟨200, some (Json.obj [("table", Json.str "users"), ("files", Json.arr [])]),
          "", ""⟩).gatewayCalled = true →
      (getOrFetch [] "https://api.example.com/v1" "key" "main" "users" 0
        ⟨200, some (Json.obj [("table", Json.str "users"), ("files", Json.arr [])]),
          "", ""⟩).manifest = none ∧
      (getOrFetch [] "https://api.example.com/v1" "key" "main" "users" 0
        ⟨200, some (Json.obj [("table", Json.str "users"), ("files", Json.arr [])]),
          "", ""⟩).err =
        "manifest contains no data files for table \x27" ++
          (⟨"users", "main", [], [], [], [], 3600, 0⟩ : TableManifest).table ++ "\x27" ∧
      ((getOrFetch [] "https://api.example.com/v1" "key" "main" "users" 0
        ⟨200, some (Json.obj [("table", Json.str "users"), ("files", Json.arr [])]),
          "", ""⟩).cache).lookup (getOrFetchKey "main" "users") = none) :=
  ⟨⟨rfl, rfl⟩,
    no_files_rejection_amended [] "https://api.example.com/v1" "key" "main" "users"
      0 _ _ _ rfl rfl (by decide) (by decide) rfl rfl⟩

/-- Claim C7, counterexample: a 404 whose body is the valid JSON object
with no `message` field surfaces the error "table not found", not the
claimed "table not found on server" (the latter is produced only when
reading the body throws). -/
theorem notfound_message_counterexample :
    (Json.obj []).find? "message" = none ∧
    (getOrFetch [] "https://api.example.com/v1" "key" "main" "orders" 0
        ⟨404, some (Json.obj []), "\x7b\x7d", ""⟩).err = "table not found" ∧
    (getOrFetch [] "https://api.example.com/v1" "key" "main" "orders" 0
        ⟨404, some (Json.obj []), "\x7b\x7d", ""⟩).err ≠
      "table not found on server" := by
  exact ⟨rfl, rfl, by decide⟩

/-- Claim C7 as amended: on a 404 (reaching the fetch path), no manifest
is returned, and the surfaced error is the body's `message` string when
the body is a JSON object carrying one; "table not found" when the body
is a JSON object without a `message` field; and "table not found on
server" exactly when reading the body throws — malformed JSON, a
non-object body, or a non-string `message`. -/
theorem notfound_message_amended (cache : Cache)
    (api_url api_key schema table : String) (now : Int)
    (response : HttpResponse) (he : response.error = "")
    (h4 : response.status_code = 404)
    (hmiss : cache.lookup (getOrFetchKey schema table) = none) :
    (getOrFetch cache api_url api_key schema table now response).manifest = none ∧
    (getOrFetch cache api_url api_key schema table now response).err =
      errMessage response.body "table not found" "table not found on server" ∧
    (∀ fs s, response.body = some (.obj fs) →
      fs.lookup "message" = some (.str s) →
      errMessage response.body "table not found" "table not found on server" = s) ∧
    (∀ fs, response.body = some (.obj fs) → fs.lookup "message" = none →
      errMessage response.body "table not found" "table not found on server" =
        "table not found") ∧
    (response.body = none →
      errMessage response.body "table not found" "table not found on server" =
        "table not found on server") ∧
    (∀ jb, response.body = some jb → jb.isObject = false →
      errMessage response.body "table not found" "table not found on server" =
        "table not found on server") ∧
    (∀ fs v, response.body = some (.obj fs) → fs.lookup "message" = some v →
      v.isString = false →
      errMessage response.body "table not found" "table not found on server" =
        "table not found on server") := by
  have hcr := classifyResponse_404 cache (getOrFetchKey schema table) now response
    he h4
  refine ⟨?_, ?_, ?_, ?_, ?_, ?_, ?_⟩
  · simp only [getOrFetch, hmiss]
    simp [hcr]
  · simp only [getOrFetch, hmiss]
    simp [hcr]
  · intro fs s hb hmsg
    rw [hb]
    simp [errMessage, Json.valueStr, hmsg]
  · intro fs hb hmsg
    rw [hb]
    simp [errMessage, Json.valueStr, hmsg]
  · intro hb
    rw [hb]
    rfl
  · intro jb hb hobj
    rw [hb]
    cases jb <;> simp [errMessage, Json.valueStr] <;> simp [Json.isObject] at hobj
  · intro fs v hb hmsg hstr
    rw [hb]
    cases v <;> simp [errMessage, Json.valueStr, hmsg] <;>
      simp [Json.isString] at hstr

/-- Witness for `notfound_message_amended`: a 404 carrying
`\x7b"message": "no such table"\x7d`. -/
theorem notfound_message_amended_witness :
    ((⟨404, some (Json.obj [("message", Json.str "no such table")]), "", ""⟩ :
        HttpResponse).error = "" ∧
     ([] : Cache).lookup (getOrFetchKey "main" "orders") = none) ∧
    (getOrFetch [] "https://api.example.com/v1" "key" "main" "orders" 0
        ⟨404, some (Json.obj [("message", Json.str "no such table")]), "", ""⟩).manifest
      = none ∧
    (getOrFetch [] "https://api.example.com/v1" "key" "main" "orders" 0
        ⟨404, some (Json.obj [("message", Json.str "no such table")]), "", ""⟩).err =
      errMessage (some (Json.obj [("message", Json.str "no such table")]))
        "table not found" "table not found on server" ∧
    (∀ fs s,
      (⟨404, some (Json.obj [("message", Json.str "no such table")]), "", ""⟩ :
          HttpResponse).body = some (.obj fs) →
      fs.lookup "message" = some (.str s) →
      errMessage (some (Json.obj [("message", Json.str "no such table")]))
        "table not found" "table not found on server" = s) := by
  have h := notfound_message_amended [] "https://api.example.com/v1" "key" "main"
    "orders" 0
    ⟨404, some (Json.obj [("message", Json.str "no such table")]), "", ""⟩
    rfl rfl rfl
  exact ⟨⟨rfl, rfl⟩, h.1, h.2.1, h.2.2.1⟩

/-- Claim C8 (expiry fallback): when field extraction succeeds and
`files` is non-empty, the parse succeeds; `fetched_at` is the parse-time
clock; an absent, non-string, or unparsable `expires_at` yields
`fetched_at + 3600`; and a parsable `YYYY-MM-DDTHH:MM:SS` string is
interpreted via `timegm`, i.e. as UTC — a pure function of the digits,
with no local-timezone input. -/
theorem expiry_fallback (j : Json) (now : Int) (m : TableManifest)
    (hcore : parseManifestCore j now = .ok m)
    (hfiles : m.files.isEmpty = false) :
    parseManifest j now = .ok m ∧
    m.fetched_at = now ∧
    ((∀ s, j.find? "expires_at" ≠ some (.str s)) →
      m.expires_at = m.fetched_at + 3600) ∧
    (∀ s, j.find? "expires_at" = some (.str s) → parseIso s = none →
      m.expires_at = m.fetched_at + 3600) ∧
    (∀ s tm, j.find? "expires_at" = some (.str s) → parseIso s = some tm →
      m.expires_at = timegmUTC tm) := by
  obtain ⟨hexp, hfetch⟩ := parseManifestCore_expires j now m hcore
  refine ⟨?_, hfetch, ?_, ?_, ?_⟩
  · unfold parseManifest
    rw [hcore]
    simp [hfiles]
  · intro hno
    rw [hexp, hfetch]
    unfold extractExpires
    cases hfind : j.find? "expires_at" with
    | none => rfl
    | some v =>
      cases v with
      | str s => exact absurd hfind (hno s)
      | null => rfl
      | jbool b => rfl
      | num n => rfl
      | arr l => rfl
      | obj l => rfl
  · intro s hfind hiso
    rw [hexp, hfetch]
    unfold extractExpires
    rw [hfind]
    dsimp only
    rw [hiso]
  · intro s tm hfind hiso
    rw [hexp]
    unfold extractExpires
    rw [hfind]
    dsimp only
    rw [hiso]

/-- Witness for `expiry_fallback`: a body whose `expires_at` is a number
(not a string) parses, with expiry `fetched_at + 3600` = 3607 at clock
7. -/
theorem expiry_fallback_witness :
    (parseManifestCore
        (Json.obj [("files", Json.arr [Json.str "https://files.example.com/a.parquet"]),
          ("expires_at", Json.num 5)]) 7 =
      .ok ⟨"", "main", [], ["https://files.example.com/a.parquet"], [], [], 3607, 7⟩ ∧
     (⟨"", "main", [], ["https://files.example.com/a.parquet"], [], [], 3607, 7⟩ :
        TableManifest).files.isEmpty = false) ∧
    (parseManifest
        (Json.obj [("files", Json.arr [Json.str "https://files.example.com/a.parquet"]),
          ("expires_at", Json.num 5)]) 7 =
      .ok ⟨"", "main", [], ["https://files.example.com/a.parquet"], [], [], 3607, 7⟩ ∧
     (⟨"", "main", [], ["https://files.example.com/a.parquet"], [], [], 3607, 7⟩ :
        TableManifest).fetched_at = 7 ∧
     ((∀ s, (Json.obj [("files", Json.arr [Json.str "https://files.example.com/a.parquet"]),
          ("expires_at", Json.num 5)]).find? "expires_at" ≠ some (.str s)) →
       (⟨"", "main", [], ["https://files.example.com/a.parquet"], [], [], 3607, 7⟩ :
          TableManifest).expires_at =
         (⟨"", "main", [], ["https://files.example.com/a.parquet"], [], [], 3607, 7⟩ :
            TableManifest).fetched_at + 3600) ∧
     (∀ s, (Json.obj [("files", Json.arr [Json.str "https://files.example.com/a.parquet"]),
          ("expires_at", Json.num 5)]).find? "expires_at" = some (.str s) →
        parseIso s = none →
       (⟨"", "main", [], ["https://files.example.com/a.parquet"], [], [], 3607, 7⟩ :
          TableManifest).expires_at =
         (⟨"", "main", [], ["https://files.example.com/a.parquet"], [], [], 3607, 7⟩ :
            TableManifest).fetched_at + 3600) ∧
     (∀ s tm, (Json.obj [("files", Json.arr [Json.str "https://files.example.com/a.parquet"]),
          ("expires_at", Json.num 5)]).find? "expires_at" = some (.str s) →
        parseIso s = some tm →
       (⟨"", "main", [], ["https://files.example.com/a.parquet"], [], [], 3607, 7⟩ :
          TableManifest).expires_at = timegmUTC tm)) :=
  ⟨⟨rfl, rfl⟩, expiry_fallback _ 7 _ rfl rfl⟩

end DuckAccess
